import Mathlib

/-!
# Dough133: heater / fan controller (`src/main.cpp`)

A shallow embedding of `og3::TempControl` together with the global collaborators it
drives (`s_pid`, `s_pwm_heater`, `s_pwm_safety`, `s_relay_fan`, `s_blink`).

Modelling conventions
* C++ `float` / `double` values are exact rationals (`ℚ`): no rounding, no NaN, no infinities.
  The one method whose branches a NaN changes, `mqttSetTargetTemp`, works on `CFloat`.
* `unsigned long` and `long` are the 32-bit types of the ESP32 target: `unsigned long`
  values are naturals reduced modulo `2 ^ 32`, `long` values are integers obtained by the
  twos-complement conversion `toLong`.
* Every call of `millis()` is a separate clock reading supplied by the environment.
* The sensor, `command` of the PID controller and `sscanf` of libc are collaborators outside
  `src/`; the values they return are inputs.  Logging, MQTT publication and the smoothing
  filters do not feed back into the controller state and are left out.
* `strncmp` of libc follows the C standard: at most `n` characters are compared and the
  comparison stops after a NUL.  A call deferred through `m_scheduler.runIn(1, ...)` is a value
  of `DeferredCall`, run later by `runDeferred`.
-/

namespace Dough133

/-! ## Constants -/

/-- Modelled from the spec: `kMsecInSec` is declared in `og3/constants.h`, which is not part
of the sources; it is the number of milliseconds in a second (the 90 s cooldown of the spec is
`90 * kMsecInSec`). -/
def kMsecInSec : Nat := 1000

def kUpdateOnMsec : Nat := 1 * kMsecInSec
def kUpdateOffMsec : Nat := 10 * kMsecInSec
def kHeaterCooldownMsec : Int := 90 * kMsecInSec

def kDefaultTargetTemp : ℚ := 27
def kDefaultMinValidTemp : ℚ := 10
def kDefaultMaxValidTemp : ℚ := 40
def kDefaultCtlFFPerDeltaC : ℚ := 1 / 100
def kDefaultRampRate : ℚ := 5 / 100
def kDefaultFFPerRate : ℚ := 0
def kTargetTempMax : ℚ := 35
def kTargetTempMin : ℚ := 15

def kOff : String := "off"
def kHeat : String := "heat"
def kHigh : String := "high"

/-- The sentinel `TempControl::kUninitializedTemp`. -/
def kUninitializedTemp : ℚ := -100

/-! ## Machine integers -/

/-- Number of values of an `unsigned long` (32 bits). -/
def kULongModulus : Nat := 2 ^ 32

/-- Conversion of an integer to `unsigned long`. -/
def toULong (z : Int) : Nat := (z % (kULongModulus : Int)).toNat

/-- Conversion of an `unsigned long` to `long` (twos complement). -/
def toLong (n : Nat) : Int :=
  if n % kULongModulus < kULongModulus / 2 then ((n % kULongModulus : Nat) : Int)
  else ((n % kULongModulus : Nat) : Int) - (kULongModulus : Int)

/-- Subtraction of two `unsigned long` values (wraps around). -/
def ulongSub (a b : Nat) : Nat :=
  (a % kULongModulus + (kULongModulus - b % kULongModulus)) % kULongModulus

/-! ## Data model -/

/-- The enum `TempControl::State`. -/
inductive State where
  | kStateDisabled
  | kStateEnabled
  | kStateCooldown
  | kStateError
  deriving DecidableEq, Repr

/-- The members of `TempControl` and the global collaborators whose state it writes. -/
structure TempControl where
  m_state : State
  m_initial_temp : ℚ
  m_last_temp : ℚ
  m_last_msec : Nat
  m_last_state_change_msec : Nat
  m_temp_min_ok : ℚ
  m_temp_max_ok : ℚ
  m_ctl_ff_per_delta_c : ℚ
  m_set_temp : ℚ
  m_ramp_rate : ℚ
  m_ff_per_rate : ℚ
  m_heat_mode : String
  m_fan_mode : String
  /-- Value of `s_pid.target()`. -/
  s_pid_target : ℚ
  /-- Value of `s_pid.d_target()`. -/
  s_pid_d_target : ℚ
  /-- Value of `s_pid.feedforward()`. -/
  s_pid_feedforward : ℚ
  /-- Duty last written to `s_pwm_heater`. -/
  s_pwm_heater : ℚ
  /-- Duty last written to `s_pwm_safety`. -/
  s_pwm_safety : ℚ
  /-- Whether `s_relay_fan` is switched on. -/
  s_relay_fan : Bool
  /-- Whether `s_blink` (the power LED) is on. -/
  s_blink : Bool
  /-- Delay of the last `m_scheduler.runIn(delay, update)`. -/
  m_scheduler : Nat
  deriving DecidableEq

/-- One `s_shtc3_enclosure.read()` together with the value `temperature()` returns after it. -/
structure SensorRead where
  ok : Bool
  temperature : ℚ

/-- Everything one call of `update()` obtains from its environment. -/
structure TickInput where
  /-- Result of `s_shtc3_enclosure.read()`. -/
  read_ok : Bool
  /-- Value of `s_shtc3_enclosure.temperature()` after that read. -/
  temperature : ℚ
  /-- Reading of `millis()` inside `setState` when the read failed. -/
  ms_fail : Nat
  /-- Reading of `millis()` assigned to `now_msec`. -/
  ms_now : Nat
  /-- Reading of `millis()` inside `setState` when the temperature is out of range. -/
  ms_invalid : Nat
  /-- Reading of `millis()` taken by `msecInState()` in the state switch. -/
  ms_switch : Nat
  /-- Reading of `millis()` inside `setState(kStateDisabled, ...)` when the cooldown has run out. -/
  ms_exit : Nat
  /-- Value returned by `s_pid.command(temp, filt_d_temp, now_msec)`. -/
  cmd : ℚ

/-- The session built by the constructor `TempControl()` followed by `heaterOff()` in `setup()`.
The variables of `s_pid`, whose constructor is outside the sources, start at 0. -/
def TempControl.init : TempControl :=
  { m_state := .kStateDisabled
    m_initial_temp := kUninitializedTemp
    m_last_temp := 0
    m_last_msec := 0
    m_last_state_change_msec := 0
    m_temp_min_ok := kDefaultMinValidTemp
    m_temp_max_ok := kDefaultMaxValidTemp
    m_ctl_ff_per_delta_c := kDefaultCtlFFPerDeltaC
    m_set_temp := kDefaultTargetTemp
    m_ramp_rate := kDefaultRampRate
    m_ff_per_rate := kDefaultFFPerRate
    m_heat_mode := kOff
    m_fan_mode := kOff
    s_pid_target := 0
    s_pid_d_target := 0
    s_pid_feedforward := 0
    s_pwm_heater := 0
    s_pwm_safety := 0
    s_relay_fan := false
    s_blink := false
    m_scheduler := 0 }

/-! ## Actuation -/

/-- The free function `heaterOn(duty)`. -/
def heaterOn (s : TempControl) (duty : ℚ) : TempControl :=
  { s with s_pwm_heater := duty, s_pwm_safety := 1 / 2 }

/-- The free function `heaterOff()`. -/
def heaterOff (s : TempControl) : TempControl :=
  { s with s_pwm_heater := 0, s_pwm_safety := 0 }

def turnFanOff (s : TempControl) : TempControl :=
  { s with s_relay_fan := false, m_fan_mode := kOff }

def turnFanOn (s : TempControl) : TempControl :=
  { s with s_relay_fan := true, m_fan_mode := kHigh }

/-! ## State changes -/

def enabled (s : TempControl) : Bool := s.m_state = .kStateEnabled

def setTargetTemp (s : TempControl) (target : ℚ) : TempControl :=
  { s with m_set_temp := target }

/-- The method `setState(state, msec)`; `millis` is the clock reading taken when the state
changes.  As in the source, the argument `msec` is not used: the next update is always
re-armed after 1 ms.  `s_pid.initialize()` resets the integrator inside the controller and
leaves `target`, `d_target` and `feedforward` alone. -/
def setState (s : TempControl) (state : State) (_msec : Nat) (millis : Nat) : TempControl :=
  let s1 : TempControl :=
    if s.m_state ≠ state then
      let s2 : TempControl :=
        { s with m_state := state, m_last_state_change_msec := millis % kULongModulus }
      { s2 with m_heat_mode := if enabled s2 then kHeat else kOff }
    else s
  let s3 : TempControl := { s1 with m_scheduler := 1 }
  if enabled s3 then { s3 with s_blink := true } else { s3 with s_blink := false }

def sameState (s : TempControl) (msec : Nat) : TempControl :=
  { s with m_scheduler := msec }

/-- The method `setEnable()`; `r` is the sensor read it performs and `millis` the clock
reading of the `setState` it calls. -/
def setEnable (s : TempControl) (r : SensorRead) (millis : Nat) : TempControl :=
  match s.m_state with
  | .kStateEnabled => s
  | _ =>
    let s1 : TempControl :=
      { s with m_initial_temp := kUninitializedTemp, s_pid_feedforward := 0 }
    let s2 : TempControl :=
      if r.ok then { s1 with s_pid_target := r.temperature, s_pid_d_target := 0 }
      else { s1 with s_pid_target := s1.m_set_temp, s_pid_d_target := 0 }
    setState s2 .kStateEnabled 100 millis

/-- The method `setDisable()`. -/
def setDisable (s : TempControl) (millis : Nat) : TempControl :=
  match s.m_state with
  | .kStateEnabled => setState s .kStateCooldown 100 millis
  | .kStateDisabled => s
  | .kStateCooldown => s
  | .kStateError => setState s .kStateDisabled 100 millis

/-- The method `msecInState()`, with `millis` the clock reading it takes. -/
def msecInState (s : TempControl) (millis : Nat) : Int :=
  toLong (ulongSub millis s.m_last_state_change_msec)

/-! ## The periodic update -/

/-- The lambda `compute_target_d_temp` of `update()`; its capture `m_ramp_rate.value()` is the
first argument. -/
def compute_target_d_temp (ramp_rate goal current_target : ℚ) : ℚ :=
  let error := goal - current_target
  let scale : ℚ := if error > 1 then 1 else if error < -1 then -1 else error
  scale * ramp_rate

/-- The expression `(now_msec - m_last_msec) * 1.0e-3`: the `long` is converted to
`unsigned long` and the difference wraps around. -/
def tickDt (now_msec : Int) (last_msec : Nat) : ℚ :=
  ((ulongSub (toULong now_msec) last_msec : Nat) : ℚ) / 1000

/-- The assignment `next_target = current_target + target_d_temp * dt` of `update()`, with
`target_d_temp` computed by `compute_target_d_temp`. -/
def next_target (ramp_rate goal dt current_target : ℚ) : ℚ :=
  current_target + compute_target_d_temp ramp_rate goal current_target * dt

/-- The piecewise reference for `plan_rate`, written from the words of the spec (section 4.2). -/
def plan_rate_spec (goal current_target ramp_rate_limit : ℚ) : ℚ :=
  let error := goal - current_target
  if error > 1 then ramp_rate_limit
  else if error < -1 then -ramp_rate_limit
  else error * ramp_rate_limit

/-- One ramp step does not overshoot: the next target lies between the current target and the
goal, the sign of the error does not flip and the distance to the goal does not grow. -/
def NoOvershoot (goal current next : ℚ) : Prop :=
  ((current ≤ next ∧ next ≤ goal) ∨ (goal ≤ next ∧ next ≤ current)) ∧
    0 ≤ (goal - current) * (goal - next) ∧ |goal - next| ≤ |goal - current|


/-- First statement of `update()`: a failed read outside Disabled sets Error. -/
def updateReadCheck (s : TempControl) (i : TickInput) : TempControl :=
  if !i.read_ok && decide (s.m_state ≠ .kStateDisabled) then
    setState s .kStateError (10 * kMsecInSec) i.ms_fail
  else s

/-- The flag `temp_ok` of `update()`. -/
def temp_ok (s : TempControl) (temp : ℚ) : Bool :=
  decide (temp ≥ s.m_temp_min_ok) && decide (temp ≤ s.m_temp_max_ok)

/-- The range check of `update()`: an out-of-range temperature sets Error. -/
def updateRangeCheck (s : TempControl) (i : TickInput) : TempControl :=
  if !temp_ok s i.temperature then
    setState s .kStateError (10 * kMsecInSec) i.ms_invalid
  else s

/-- Storing the enclosure temperature when control is first enabled. -/
def updateCapture (s : TempControl) (temp : ℚ) : TempControl :=
  if s.m_state = .kStateEnabled ∧ s.m_initial_temp = kUninitializedTemp then
    { s with m_initial_temp := temp }
  else s

/-- The block "Ramping and Feedforward Logic" of `update()`. -/
def updateRamp (s : TempControl) (now_msec : Int) : TempControl :=
  if s.m_state = .kStateEnabled ∧ s.m_last_msec > 0 then
    let dt := tickDt now_msec s.m_last_msec
    if dt > 0 ∧ dt < 2 then
      let current_target := s.s_pid_target
      let target_d_temp := compute_target_d_temp s.m_ramp_rate s.m_set_temp current_target
      let next_target := current_target + target_d_temp * dt
      let dynamic_ff := target_d_temp * s.m_ff_per_rate
      let static_ff := (next_target - s.m_initial_temp) * s.m_ctl_ff_per_delta_c
      { s with
        s_pid_target := next_target
        s_pid_d_target := target_d_temp
        s_pid_feedforward := static_ff + dynamic_ff }
    else s
  else s

/-- The block "Track filtered temperature" of `update()`, as far as it writes members. -/
def updateTrack (s : TempControl) (ok : Bool) (temp : ℚ) (now_msec : Int) : TempControl :=
  if ok then { s with m_last_temp := temp, m_last_msec := toULong now_msec } else s

/-- The `switch (m_state.value())` that ends `update()`. -/
def updateSwitch (s : TempControl) (i : TickInput) : TempControl :=
  match s.m_state with
  | .kStateDisabled => sameState (turnFanOff (heaterOff s)) kUpdateOffMsec
  | .kStateEnabled => sameState (turnFanOn (heaterOn s i.cmd)) kUpdateOnMsec
  | _ =>
    let s1 := heaterOff s
    if msecInState s1 i.ms_switch < kHeaterCooldownMsec then
      sameState (turnFanOn s1) kUpdateOffMsec
    else
      let s2 := turnFanOff s1
      if s2.m_state = .kStateCooldown then
        setState s2 .kStateDisabled kUpdateOffMsec i.ms_exit
      else sameState s2 kUpdateOffMsec

/-- The method `update()`. -/
def update (s : TempControl) (i : TickInput) : TempControl :=
  let s1 := updateReadCheck s i
  let now_msec : Int := toLong i.ms_now
  let temp := i.temperature
  let ok := temp_ok s1 temp
  let s2 := updateRangeCheck s1 i
  let s3 := updateCapture s2 temp
  let s4 := updateRamp s3 now_msec
  let s5 := updateTrack s4 ok temp now_msec
  updateSwitch s5 i

/-- The session on which the ramp block of `update()` runs. -/
def preRamp (s : TempControl) (i : TickInput) : TempControl :=
  updateCapture (updateRangeCheck (updateReadCheck s i) i) i.temperature

/-- The session on which the state switch of `update()` runs. -/
def preSwitch (s : TempControl) (i : TickInput) : TempControl :=
  updateTrack (updateRamp (preRamp s i) (toLong i.ms_now))
    (temp_ok (updateReadCheck s i) i.temperature) i.temperature (toLong i.ms_now)

/-- The update is prompt: what `msecInState()` reports at the state switch for a state entered
earlier in the same update (at the reading `ms_fail` or `ms_invalid`) is below the cooldown
duration, that is, the update itself does not take 90 s. -/
def TickInput.Prompt (i : TickInput) : Prop :=
  toLong (ulongSub i.ms_switch i.ms_fail) < kHeaterCooldownMsec ∧
  toLong (ulongSub i.ms_switch i.ms_invalid) < kHeaterCooldownMsec

/-! ## Remote commands -/

/-- The value of a C `float` as the comparisons of `mqttSetTargetTemp` see it: a finite
number, an infinity, or a NaN. -/
inductive CFloat where
  | finite (q : ℚ)
  | posInf
  | negInf
  | nan
  deriving DecidableEq

/-- The C comparison `x > bound` against a finite bound; it is false for a NaN. -/
def CFloat.gt : CFloat → ℚ → Bool
  | .finite q, bound => decide (q > bound)
  | .posInf, _ => true
  | .negInf, _ => false
  | .nan, _ => false

/-- The C comparison `x < bound` against a finite bound; it is false for a NaN. -/
def CFloat.lt : CFloat → ℚ → Bool
  | .finite q, bound => decide (q < bound)
  | .posInf, _ => false
  | .negInf, _ => true
  | .nan, _ => false

/-- The method `mqttSetTargetTemp(topic, payload, len)` as it acts on `m_set_temp`, the only
member it writes: `scan` is the outcome of `sscanf(payload, "%f", &temp)`, `none` when the call
does not return 1 and otherwise the float it stored in `temp`; `set_temp` is the value of
`m_set_temp` before the call and the result its value afterwards (the last branch is
`setTargetTemp(temp)`). -/
def mqttSetTargetTemp (scan : Option CFloat) (set_temp : CFloat) : CFloat :=
  match scan with
  | none => set_temp
  | some temp =>
    if temp.gt kTargetTempMax then set_temp
    else if temp.lt kTargetTempMin then set_temp
    else temp

/-! ## Scenarios -/

/-- The session of Scenario A: enable requested on the initial session with a sample of 24.0
(setpoint 27.0, ramp rate 0.05), after a first valid sample has been tracked at 5000 ms. -/
def scenarioA : TempControl :=
  setEnable { TempControl.init with m_last_temp := 24, m_last_msec := 5000 }
    { ok := true, temperature := 24 } 5990

/-- The tick of Scenario A, one second after the last valid sample. -/
def scenarioATick : TickInput :=
  { read_ok := true, temperature := 24, ms_fail := 6000, ms_now := 6000, ms_invalid := 6000,
    ms_switch := 6000, ms_exit := 6000, cmd := 1 / 4 }

/-- The tick of Scenario B: the enclosure sensor cannot be read. -/
def scenarioBTick : TickInput :=
  { read_ok := false, temperature := 24, ms_fail := 6000, ms_now := 6000, ms_invalid := 6000,
    ms_switch := 6001, ms_exit := 6001, cmd := 1 / 4 }

/-- The session of Scenario C: Error entered at 6000 ms, fan running. -/
def scenarioC : TempControl :=
  { TempControl.init with
    m_state := .kStateError, m_last_state_change_msec := 6000, s_relay_fan := true,
    m_fan_mode := kHigh }

/-- A tick of Scenario C with a good sample, 94 s after the error was entered. -/
def scenarioCTick : TickInput :=
  { read_ok := true, temperature := 24, ms_fail := 100000, ms_now := 100000,
    ms_invalid := 100000, ms_switch := 100000, ms_exit := 100000, cmd := 0 }

/-- The session of Scenario D: disable requested at 60000 ms on the session of Scenario A. -/
def scenarioD : TempControl := setDisable scenarioA 60000

/-- The tick of Scenario D: a good sample 10 s into the cooldown. -/
def scenarioDTick : TickInput :=
  { read_ok := true, temperature := 26, ms_fail := 70000, ms_now := 70000, ms_invalid := 70000,
    ms_switch := 70000, ms_exit := 70000, cmd := 0 }

/-- A tick on the session of Scenario A that comes 10 s after the last valid sample. -/
def scenarioLateTick : TickInput :=
  { read_ok := true, temperature := 24, ms_fail := 15000, ms_now := 15000, ms_invalid := 15000,
    ms_switch := 15000, ms_exit := 15000, cmd := 1 / 4 }

/-- The tick of Scenario A with the controller returning a command of 0. -/
def scenarioZeroCmdTick : TickInput := { scenarioATick with cmd := 0 }

/-- A tick on the session of Scenario C with a good sample, `2 ^ 31` ms (about 24.8 days) after
the error was entered. -/
def scenarioWrapTick : TickInput :=
  { read_ok := true, temperature := 24, ms_fail := 2147489648, ms_now := 2147489648,
    ms_invalid := 2147489648, ms_switch := 2147489648, ms_exit := 2147489648, cmd := 0 }

/-! ## Remote mode -/

/-- The call `strncmp(s1, s2, n)` of libc: at most `n` characters are compared and the
comparison stops after a NUL character.  The end of a list stands for the terminating NUL. -/
def strncmp : List Char → List Char → Nat → Int
  | _, _, 0 => 0
  | [], [], _ + 1 => 0
  | [], c2 :: _, _ + 1 => -(c2.toNat : Int)
  | c1 :: _, [], _ + 1 => (c1.toNat : Int)
  | c1 :: r1, c2 :: r2, n + 1 =>
    if c1 = c2 then (if c1 = '\x00' then 0 else strncmp r1 r2 n)
    else (c1.toNat : Int) - (c2.toNat : Int)

/-- The callbacks that `delaySetEnable` hands to `m_scheduler.runIn(1, ...)`. -/
inductive DeferredCall where
  | setDisable
  | setEnable
  deriving DecidableEq, Repr

/-- The method `delaySetEnable(enable)`: the call it schedules, if any. -/
def delaySetEnable (s : TempControl) (enable : Bool) : Option DeferredCall :=
  if !enable && enabled s then some .setDisable
  else if enable && !enabled s then some .setEnable
  else none

/-- The scheduled call when the scheduler runs it; `r` and `millis` are the sensor read and the
clock reading it takes. -/
def runDeferred (s : TempControl) (c : Option DeferredCall) (r : SensorRead) (millis : Nat) :
    TempControl :=
  match c with
  | none => s
  | some .setDisable => setDisable s millis
  | some .setEnable => setEnable s r millis

/-- The method `mqttSetMode(topic, payload, len)`: `payload` holds the `len` bytes of the
message, and the result is the call scheduled through `delaySetEnable`, if any. -/
def mqttSetMode (s : TempControl) (payload : List Char) : Option DeferredCall :=
  let len := payload.length
  if 0 = strncmp payload kOff.toList len then delaySetEnable s false
  else if 0 = strncmp payload kHeat.toList len then delaySetEnable s true
  else none

/-- The tick of Scenario B with a successful read of 50.0, above the valid range. -/
def scenarioHotTick : TickInput := { scenarioBTick with read_ok := true, temperature := 50 }

/-! ## Clock arithmetic -/

/-- Reading a clock value as `long` and back as `unsigned long` keeps it modulo `2 ^ 32`. -/
theorem toULong_toLong (n : Nat) : toULong (toLong n) = n % kULongModulus := by
  unfold toULong toLong
  simp only [kULongModulus]
  split_ifs <;> omega

/-- Without wrap-around the `unsigned long` difference is the plain difference. -/
theorem ulongSub_of_le (now last : Nat) (h1 : last ≤ now) (h2 : now < kULongModulus) :
    ulongSub now last = now - last := by
  unfold ulongSub
  simp only [kULongModulus] at *
  omega

/-- Without wrap-around `dt` is the number of milliseconds since the last valid sample, in
seconds. -/
theorem tickDt_of_le (now last : Nat) (h1 : last ≤ now) (h2 : now < kULongModulus) :
    tickDt (toLong now) last = ((now - last : Nat) : ℚ) / 1000 := by
  unfold tickDt
  rw [toULong_toLong, Nat.mod_eq_of_lt h2, ulongSub_of_le now last h1 h2]

/-- Without wrap-around, and below `2 ^ 31` ms, `msecInState()` is the number of milliseconds
since the last state change. -/
theorem msecInState_of_le (s : TempControl) (now : Nat)
    (h1 : s.m_last_state_change_msec ≤ now) (h2 : now < kULongModulus)
    (h3 : now - s.m_last_state_change_msec < kULongModulus / 2) :
    msecInState s now = ((now - s.m_last_state_change_msec : Nat) : Int) := by
  unfold msecInState
  rw [ulongSub_of_le now _ h1 h2]
  unfold toLong
  simp only [kULongModulus] at *
  split_ifs <;> omega

/-! ## Trajectory planner -/

/-- C1: the rate computed by `compute_target_d_temp` equals the piecewise reference of the
spec: the ramp rate when the error exceeds 1, its negation when the error is below -1, and
the error times the ramp rate in between. -/
theorem compute_target_d_temp_eq_plan_rate_spec (goal current_target r : ℚ) :
    compute_target_d_temp r goal current_target = plan_rate_spec goal current_target r ∧
    (goal - current_target > 1 → compute_target_d_temp r goal current_target = r) ∧
    (goal - current_target < -1 → compute_target_d_temp r goal current_target = -r) ∧
    (-1 ≤ goal - current_target → goal - current_target ≤ 1 →
      compute_target_d_temp r goal current_target = (goal - current_target) * r) := by
  refine ⟨?_, ?_, ?_, ?_⟩
  · simp only [compute_target_d_temp, plan_rate_spec]
    split_ifs <;> ring
  · intro h
    simp [compute_target_d_temp, h]
  · intro h
    have h1 : ¬ goal - current_target > 1 := by linarith
    simp [compute_target_d_temp, h, h1]
  · intro h1 h2
    have h3 : ¬ goal - current_target > 1 := by linarith
    have h4 : ¬ goal - current_target < -1 := by linarith
    simp [compute_target_d_temp, h3, h4]

/-- Witness of C1 in each of the three regions of the error. -/
theorem compute_target_d_temp_eq_plan_rate_spec_witness :
    compute_target_d_temp (5 / 100) 27 24 = 5 / 100 ∧
    compute_target_d_temp (5 / 100) 24 27 = -(5 / 100) ∧
    compute_target_d_temp (5 / 100) 27 (53 / 2) = (27 - 53 / 2) * (5 / 100) :=
  ⟨(compute_target_d_temp_eq_plan_rate_spec 27 24 (5 / 100)).2.1 (by norm_num),
   (compute_target_d_temp_eq_plan_rate_spec 24 27 (5 / 100)).2.2.1 (by norm_num),
   (compute_target_d_temp_eq_plan_rate_spec 27 (53 / 2) (5 / 100)).2.2.2
     (by norm_num) (by norm_num)⟩

/-! ## The update in the Enabled state -/

/-- The update of an Enabled session with a good sample, up to the state switch. -/
theorem update_enabled_valid (s : TempControl) (i : TickInput)
    (hst : s.m_state = .kStateEnabled) (hread : i.read_ok = true)
    (hok : temp_ok s i.temperature = true) :
    update s i =
      sameState (turnFanOn (heaterOn
        (updateTrack (updateRamp (updateCapture s i.temperature) (toLong i.ms_now))
          true i.temperature (toLong i.ms_now)) i.cmd)) kUpdateOnMsec := by
  have h1 : updateReadCheck s i = s := by simp [updateReadCheck, hread]
  have h2 : updateRangeCheck s i = s := by simp [updateRangeCheck, hok]
  have h3 : (updateTrack (updateRamp (updateCapture s i.temperature) (toLong i.ms_now))
      true i.temperature (toLong i.ms_now)).m_state = .kStateEnabled := by
    simp only [updateTrack, updateRamp, updateCapture]
    split_ifs <;> simp_all
  simp only [update, h1, h2, hok]
  simp only [updateSwitch, h3]

/-- C2: a tick that starts in Enabled with a successful read, an in-range temperature, a
previous valid sample and `0 < dt < 2` moves the ramped target to `current + rate * dt`, sets
the target rate to `rate` and the feedforward to
`(new target - initial_temp) * ff_per_delta + rate * ff_per_rate`, where `rate` is computed
by `compute_target_d_temp` from the setpoint and the current target, and `initial_temp` is
the value held after the capture step of this tick. -/
theorem update_enabled_ramp (s : TempControl) (i : TickInput)
    (hst : s.m_state = .kStateEnabled) (hread : i.read_ok = true)
    (hlo : s.m_temp_min_ok ≤ i.temperature) (hhi : i.temperature ≤ s.m_temp_max_ok)
    (hlast : 0 < s.m_last_msec)
    (hdt0 : 0 < tickDt (toLong i.ms_now) s.m_last_msec)
    (hdt2 : tickDt (toLong i.ms_now) s.m_last_msec < 2) :
    (update s i).s_pid_target =
        s.s_pid_target + compute_target_d_temp s.m_ramp_rate s.m_set_temp s.s_pid_target
          * tickDt (toLong i.ms_now) s.m_last_msec ∧
    (update s i).s_pid_d_target =
        compute_target_d_temp s.m_ramp_rate s.m_set_temp s.s_pid_target ∧
    (update s i).s_pid_feedforward =
        ((update s i).s_pid_target - (update s i).m_initial_temp) * s.m_ctl_ff_per_delta_c
          + compute_target_d_temp s.m_ramp_rate s.m_set_temp s.s_pid_target * s.m_ff_per_rate ∧
    (update s i).m_initial_temp =
        (if s.m_initial_temp = kUninitializedTemp then i.temperature else s.m_initial_temp) ∧
    (update s i).m_state = .kStateEnabled := by
  have hok : temp_ok s i.temperature = true := by simp [temp_ok, hlo, hhi]
  rw [update_enabled_valid s i hst hread hok]
  by_cases hinit : s.m_initial_temp = kUninitializedTemp <;>
    simp [sameState, turnFanOn, heaterOn, updateTrack, updateRamp, updateCapture, hst, hinit,
      hlast, hdt0, hdt2]

/-- The session of Scenario A, written out. -/
theorem scenarioA_eq : scenarioA =
    { TempControl.init with
      m_state := .kStateEnabled, m_last_temp := 24, m_last_msec := 5000,
      m_last_state_change_msec := 5990, m_heat_mode := kHeat, s_pid_target := 24,
      s_blink := true, m_scheduler := 1 } := by
  rfl

/-- The tick of Scenario A comes one second after the last valid sample. -/
theorem scenarioA_tickDt : tickDt (toLong scenarioATick.ms_now) scenarioA.m_last_msec = 1 := by
  have h : ulongSub (toULong (toLong 6000)) 5000 = 1000 := by decide
  simp only [scenarioA_eq, scenarioATick, tickDt, h]
  norm_num

/-- Witness of C2 (Scenario A): target 24.0, setpoint 27.0, ramp rate 0.05 and `dt = 1 s` give
a ramped target of 24.05 and a target rate of 0.05; the initial temperature is captured as 24.0
and the feedforward is `(24.05 - 24.0) * 0.01 + 0.05 * 0`. -/
theorem update_enabled_ramp_witness :
    (update scenarioA scenarioATick).s_pid_target = 2405 / 100 ∧
    (update scenarioA scenarioATick).s_pid_d_target = 5 / 100 ∧
    (update scenarioA scenarioATick).m_initial_temp = 24 ∧
    (update scenarioA scenarioATick).s_pid_feedforward = 5 / 10000 := by
  have h := update_enabled_ramp scenarioA scenarioATick rfl rfl
    (by norm_num [scenarioA_eq, scenarioATick, TempControl.init, kDefaultMinValidTemp])
    (by norm_num [scenarioA_eq, scenarioATick, TempControl.init, kDefaultMaxValidTemp])
    (by decide) (by rw [scenarioA_tickDt]; norm_num) (by rw [scenarioA_tickDt]; norm_num)
  rw [scenarioA_tickDt] at h
  have hrate : compute_target_d_temp scenarioA.m_ramp_rate scenarioA.m_set_temp
      scenarioA.s_pid_target = 5 / 100 := by
    norm_num [scenarioA_eq, TempControl.init, compute_target_d_temp, kDefaultRampRate,
      kDefaultTargetTemp]
  rw [hrate] at h
  have h1 : (update scenarioA scenarioATick).s_pid_target = 2405 / 100 := by
    rw [h.1]
    norm_num [scenarioA_eq, TempControl.init]
  have h3 : (update scenarioA scenarioATick).m_initial_temp = 24 := by
    rw [h.2.2.2.1]
    simp [scenarioA_eq, TempControl.init, scenarioATick]
  refine ⟨h1, h.2.1, h3, ?_⟩
  rw [h.2.2.1, h1, h3]
  norm_num [scenarioA_eq, TempControl.init, kDefaultCtlFFPerDeltaC, kDefaultFFPerRate]

/-! ## The ramp bound -/

theorem setState_state (s : TempControl) (st : State) (m t : Nat) :
    (setState s st m t).m_state = st := by
  simp only [setState]
  split_ifs <;> simp_all

/-- The scaled step of the ramp lies between zero and the error. -/
theorem ramp_step_between (r goal dt c : ℚ) (hr : 0 < r) (hdt : 0 < dt) (hrd : r * dt ≤ 1) :
    (0 ≤ compute_target_d_temp r goal c * dt ∧ compute_target_d_temp r goal c * dt ≤ goal - c) ∨
    (goal - c ≤ compute_target_d_temp r goal c * dt ∧ compute_target_d_temp r goal c * dt ≤ 0) := by
  have hd : 0 < r * dt := mul_pos hr hdt
  simp only [compute_target_d_temp]
  split_ifs with h1 h2
  · left
    constructor
    · nlinarith
    · nlinarith
  · right
    constructor
    · nlinarith
    · nlinarith
  · push_neg at h1 h2
    rcases le_total 0 (goal - c) with h | h
    · left
      constructor
      · have := mul_nonneg h hd.le
        nlinarith
      · have : (goal - c) * (r * dt) ≤ (goal - c) * 1 := mul_le_mul_of_nonneg_left hrd h
        nlinarith
    · right
      constructor
      · have : (goal - c) * 1 ≤ (goal - c) * (r * dt) := mul_le_mul_of_nonpos_left hrd h
        nlinarith
      · have := mul_nonpos_of_nonpos_of_nonneg h hd.le
        nlinarith

/-- One ramp step does not overshoot when `ramp_rate * dt ≤ 1`. -/
theorem next_target_noOvershoot (r goal dt c : ℚ) (hr : 0 < r) (hdt : 0 < dt)
    (hrd : r * dt ≤ 1) : NoOvershoot goal c (next_target r goal dt c) := by
  unfold NoOvershoot next_target
  rcases ramp_step_between r goal dt c hr hdt hrd with ⟨h1, h2⟩ | ⟨h1, h2⟩
  · refine ⟨Or.inl ⟨by linarith, by linarith⟩, ?_, ?_⟩
    · apply mul_nonneg <;> linarith
    · rw [abs_of_nonneg (by linarith), abs_of_nonneg (by linarith)]
      linarith
  · refine ⟨Or.inr ⟨by linarith, by linarith⟩, ?_, ?_⟩
    · apply mul_nonneg_of_nonpos_of_nonpos <;> linarith
    · rw [abs_of_nonpos (by linarith), abs_of_nonpos (by linarith)]
      linarith

/-- C4, counterexample: with goal 1, target 0, ramp rate 2 and `dt = 3/2` (so `0 < dt < 2`)
the next target is 3: it passes the goal, the sign of the error flips and the distance to the
goal grows from 1 to 2. -/
theorem ramp_overshoots :
    (0 : ℚ) < 2 ∧ (0 : ℚ) < 3 / 2 ∧ (3 / 2 : ℚ) < 2 ∧
      next_target 2 1 (3 / 2) 0 = 3 ∧ ¬ NoOvershoot 1 0 (next_target 2 1 (3 / 2) 0) := by
  have h : next_target 2 1 (3 / 2) 0 = 3 := by
    norm_num [next_target, compute_target_d_temp]
  refine ⟨by norm_num, by norm_num, by norm_num, h, ?_⟩
  rw [h]
  unfold NoOvershoot
  norm_num

/-- C4, amended: for a positive ramp rate and a constant `dt` with `0 < dt < 2` and
`ramp_rate * dt ≤ 1`, every step of the repeated ramp `next = current + rate * dt` lands
between the current target and the goal (inclusive), keeps the sign of the error and does not
increase the distance to the goal. -/
theorem ramp_iterate_noOvershoot (r goal dt c : ℚ) (hr : 0 < r) (hdt : 0 < dt) (_hdt2 : dt < 2)
    (hrd : r * dt ≤ 1) (n : Nat) :
    NoOvershoot goal ((next_target r goal dt)^[n] c) ((next_target r goal dt)^[n + 1] c) := by
  rw [Function.iterate_succ_apply']
  exact next_target_noOvershoot r goal dt _ hr hdt hrd

/-- Witness of the amended C4 with the default ramp rate 0.05 and `dt = 1`, at the fourth
step from 24 towards 27. -/
theorem ramp_iterate_noOvershoot_witness :
    NoOvershoot 27 ((next_target (5 / 100) 27 1)^[3] 24) ((next_target (5 / 100) 27 1)^[3 + 1] 24) :=
  ramp_iterate_noOvershoot (5 / 100) 27 1 24 (by norm_num) (by norm_num) (by norm_num)
    (by norm_num) 3

/-! ## The checks and the state switch of the update -/

theorem update_eq_preSwitch (s : TempControl) (i : TickInput) :
    update s i = updateSwitch (preSwitch s i) i := rfl

theorem ulongSub_mod_right (a b : Nat) : ulongSub a (b % kULongModulus) = ulongSub a b := by
  simp [ulongSub, Nat.mod_mod]

theorem temp_ok_iff (s : TempControl) (t : ℚ) :
    temp_ok s t = true ↔ s.m_temp_min_ok ≤ t ∧ t ≤ s.m_temp_max_ok := by
  simp [temp_ok]

theorem temp_ok_false_iff (s : TempControl) (t : ℚ) :
    temp_ok s t = false ↔ t < s.m_temp_min_ok ∨ s.m_temp_max_ok < t := by
  rw [← Bool.not_eq_true, temp_ok_iff, not_and_or, not_le, not_le]

theorem setState_bounds (s : TempControl) (st : State) (m t : Nat) :
    (setState s st m t).m_temp_min_ok = s.m_temp_min_ok ∧
    (setState s st m t).m_temp_max_ok = s.m_temp_max_ok := by
  simp only [setState]
  split_ifs <;> simp

theorem setState_entered (s : TempControl) (st : State) (m t : Nat) :
    (setState s st m t).m_last_state_change_msec =
      if s.m_state = st then s.m_last_state_change_msec else t % kULongModulus := by
  simp only [setState]
  split_ifs <;> simp_all

theorem setState_outputs (s : TempControl) (st : State) (m t : Nat) :
    (setState s st m t).s_pwm_heater = s.s_pwm_heater ∧
    (setState s st m t).s_pwm_safety = s.s_pwm_safety ∧
    (setState s st m t).s_relay_fan = s.s_relay_fan := by
  simp only [setState]
  split_ifs <;> simp

theorem updateReadCheck_temp_ok (s : TempControl) (i : TickInput) (t : ℚ) :
    temp_ok (updateReadCheck s i) t = temp_ok s t := by
  unfold updateReadCheck
  split_ifs
  · simp [temp_ok, setState_bounds]
  · rfl

/-- The control state after the two checks that open `update()`. -/
theorem checked_state (s : TempControl) (i : TickInput) :
    (updateRangeCheck (updateReadCheck s i) i).m_state =
      if (i.read_ok = false ∧ s.m_state ≠ .kStateDisabled) ∨ temp_ok s i.temperature = false
      then .kStateError else s.m_state := by
  unfold updateRangeCheck
  rw [updateReadCheck_temp_ok]
  unfold updateReadCheck
  cases hr : i.read_ok <;> cases hk : temp_ok s i.temperature <;>
    by_cases hd : s.m_state = .kStateDisabled <;> simp [hd, setState_state]

/-- The time of the last state change after the two checks that open `update()`. -/
theorem checked_entered (s : TempControl) (i : TickInput) :
    (updateRangeCheck (updateReadCheck s i) i).m_last_state_change_msec =
      if s.m_state = .kStateError then s.m_last_state_change_msec
      else if i.read_ok = false ∧ s.m_state ≠ .kStateDisabled then i.ms_fail % kULongModulus
      else if temp_ok s i.temperature = false then i.ms_invalid % kULongModulus
      else s.m_last_state_change_msec := by
  unfold updateRangeCheck
  rw [updateReadCheck_temp_ok]
  unfold updateReadCheck
  cases hr : i.read_ok <;> cases hk : temp_ok s i.temperature <;>
    by_cases hd : s.m_state = .kStateDisabled <;> by_cases he : s.m_state = .kStateError <;>
    simp_all [setState_state, setState_entered]

theorem preSwitch_fields (s : TempControl) (i : TickInput) :
    (preSwitch s i).m_state = (updateRangeCheck (updateReadCheck s i) i).m_state ∧
    (preSwitch s i).m_last_state_change_msec =
      (updateRangeCheck (updateReadCheck s i) i).m_last_state_change_msec := by
  simp only [preSwitch, preRamp, updateTrack, updateRamp, updateCapture]
  split_ifs <;> simp

theorem updateSwitch_disabled (s : TempControl) (i : TickInput)
    (h : s.m_state = .kStateDisabled) :
    updateSwitch s i = sameState (turnFanOff (heaterOff s)) kUpdateOffMsec := by
  simp [updateSwitch, h]

theorem updateSwitch_enabled (s : TempControl) (i : TickInput)
    (h : s.m_state = .kStateEnabled) :
    updateSwitch s i = sameState (turnFanOn (heaterOn s i.cmd)) kUpdateOnMsec := by
  simp [updateSwitch, h]

theorem updateSwitch_error (s : TempControl) (i : TickInput)
    (h : s.m_state = .kStateError) :
    updateSwitch s i =
      if msecInState s i.ms_switch < kHeaterCooldownMsec then
        sameState (turnFanOn (heaterOff s)) kUpdateOffMsec
      else sameState (turnFanOff (heaterOff s)) kUpdateOffMsec := by
  simp [updateSwitch, h, msecInState, heaterOff, turnFanOff]

theorem updateSwitch_cooldown (s : TempControl) (i : TickInput)
    (h : s.m_state = .kStateCooldown) :
    updateSwitch s i =
      if msecInState s i.ms_switch < kHeaterCooldownMsec then
        sameState (turnFanOn (heaterOff s)) kUpdateOffMsec
      else setState (turnFanOff (heaterOff s)) .kStateDisabled kUpdateOffMsec i.ms_exit := by
  simp [updateSwitch, h, msecInState, heaterOff, turnFanOff]

/-- The outcome of the state switch, field by field. -/
theorem updateSwitch_result (s : TempControl) (i : TickInput) :
    (updateSwitch s i).m_state =
        (if s.m_state = .kStateCooldown ∧ ¬ msecInState s i.ms_switch < kHeaterCooldownMsec
         then .kStateDisabled else s.m_state) ∧
    (updateSwitch s i).s_pwm_heater = (if s.m_state = .kStateEnabled then i.cmd else 0) ∧
    (updateSwitch s i).s_pwm_safety = (if s.m_state = .kStateEnabled then 1 / 2 else 0) ∧
    (updateSwitch s i).s_relay_fan =
        (if s.m_state = .kStateEnabled then true
         else if s.m_state = .kStateDisabled then false
         else decide (msecInState s i.ms_switch < kHeaterCooldownMsec)) ∧
    (s.m_state = .kStateError →
      (updateSwitch s i).m_last_state_change_msec = s.m_last_state_change_msec) := by
  cases hs : s.m_state
  · rw [updateSwitch_disabled s i hs]
    simp [sameState, turnFanOff, heaterOff, hs]
  · rw [updateSwitch_enabled s i hs]
    simp [sameState, turnFanOn, heaterOn, hs]
  · rw [updateSwitch_cooldown s i hs]
    by_cases h : msecInState s i.ms_switch < kHeaterCooldownMsec
    · rw [if_pos h]
      simp [sameState, turnFanOn, heaterOff, hs, h]
    · rw [if_neg h]
      simp [setState_state, setState_outputs, turnFanOff, heaterOff, h]
  · rw [updateSwitch_error s i hs]
    by_cases h : msecInState s i.ms_switch < kHeaterCooldownMsec
    · rw [if_pos h]
      simp [sameState, turnFanOn, heaterOff, hs, h]
    · rw [if_neg h]
      simp [sameState, turnFanOff, heaterOff, hs, h]

/-- C5: for an update that starts in Enabled, the session ends in Error exactly when the
sensor read fails or the temperature lies outside `[m_temp_min_ok, m_temp_max_ok]`, and stays
Enabled exactly when the read succeeds with a temperature inside the inclusive range (so the
two bounds themselves are valid); when it ends in Error the heater and the safety signal are
commanded to 0 and, the update being prompt, the fan is switched on. -/
theorem update_enabled_error_iff (s : TempControl) (i : TickInput)
    (hst : s.m_state = .kStateEnabled) :
    ((update s i).m_state = .kStateError ↔
      (i.read_ok = false ∨ i.temperature < s.m_temp_min_ok ∨ s.m_temp_max_ok < i.temperature)) ∧
    ((update s i).m_state = .kStateEnabled ↔
      (i.read_ok = true ∧ s.m_temp_min_ok ≤ i.temperature ∧ i.temperature ≤ s.m_temp_max_ok)) ∧
    (i.read_ok = true → s.m_temp_min_ok ≤ s.m_temp_max_ok →
      i.temperature = s.m_temp_min_ok ∨ i.temperature = s.m_temp_max_ok →
      (update s i).m_state = .kStateEnabled) ∧
    ((update s i).m_state = .kStateError →
      (update s i).s_pwm_heater = 0 ∧ (update s i).s_pwm_safety = 0 ∧
      (i.Prompt → (update s i).s_relay_fan = true)) := by
  obtain ⟨hps, hpe⟩ := preSwitch_fields s i
  rw [checked_state] at hps
  rw [checked_entered] at hpe
  obtain ⟨hus, huh, hup, huf, -⟩ := updateSwitch_result (preSwitch s i) i
  rw [← update_eq_preSwitch] at hus huh hup huf
  by_cases hf : i.read_ok = false ∨ temp_ok s i.temperature = false
  · -- sensor fault: the switch runs in Error
    have hE : (preSwitch s i).m_state = .kStateError := by
      rw [hps, hst]
      rcases hf with h | h <;> simp [h]
    have hfault : i.read_ok = false ∨ i.temperature < s.m_temp_min_ok ∨
        s.m_temp_max_ok < i.temperature := by
      rcases hf with h | h
      · exact Or.inl h
      · exact Or.inr ((temp_ok_false_iff s _).mp h)
    have hnv : ¬ (i.read_ok = true ∧ s.m_temp_min_ok ≤ i.temperature ∧
        i.temperature ≤ s.m_temp_max_ok) := by
      rintro ⟨h1, h2, h3⟩
      rcases hfault with h | h | h
      · simp [h1] at h
      · linarith
      · linarith
    have hst' : (update s i).m_state = .kStateError := by rw [hus, hE]; simp
    refine ⟨⟨fun _ => hfault, fun _ => hst'⟩, ⟨fun h => ?_, fun h => absurd h hnv⟩, ?_, ?_⟩
    · rw [hst'] at h
      cases h
    · intro h1 h2 h3
      exfalso
      apply hnv
      rcases h3 with h3 | h3
      · exact ⟨h1, h3 ▸ le_refl _, h3 ▸ h2⟩
      · exact ⟨h1, h3 ▸ h2, h3 ▸ le_refl _⟩
    · intro _
      refine ⟨by rw [huh, hE]; simp, by rw [hup, hE]; simp, ?_⟩
      intro hp
      rw [huf, hE]
      simp only [reduceCtorEq, if_false, decide_eq_true_eq]
      unfold msecInState
      rw [hpe, hst]
      simp only [reduceCtorEq, if_false]
      by_cases hr : i.read_ok = false
      · simp only [hr, ne_eq, reduceCtorEq, not_false_eq_true, and_self, if_true,
          ulongSub_mod_right]
        exact hp.1
      · have hk : temp_ok s i.temperature = false := hf.resolve_left hr
        have hr' : i.read_ok = true := by simpa using hr
        rw [if_neg (by simp [hr']), if_pos hk, ulongSub_mod_right]
        exact hp.2
  · -- good sample: the switch runs in Enabled
    push_neg at hf
    have hr : i.read_ok = true := by simpa using hf.1
    have hk : temp_ok s i.temperature = true := by simpa using hf.2
    have hv := (temp_ok_iff s _).mp hk
    have hE : (preSwitch s i).m_state = .kStateEnabled := by
      rw [hps, hst]
      simp [hr, hk]
    have hst' : (update s i).m_state = .kStateEnabled := by rw [hus, hE]; simp
    refine ⟨⟨fun h => ?_, fun h => ?_⟩, ⟨fun _ => ⟨hr, hv⟩, fun _ => hst'⟩, fun _ _ _ => hst',
      fun h => ?_⟩
    · rw [hst'] at h
      cases h
    · exfalso
      rcases h with h | h | h
      · simp [hr] at h
      · linarith [hv.1]
      · linarith [hv.2]
    · rw [hst'] at h
      cases h

/-- Witness of C5 (Scenario B): the read fails on an Enabled session; the update ends in
Error with the heater at 0 and the fan on. -/
theorem update_enabled_error_iff_witness :
    (update scenarioA scenarioBTick).m_state = .kStateError ∧
    (update scenarioA scenarioBTick).s_pwm_heater = 0 ∧
    (update scenarioA scenarioBTick).s_relay_fan = true := by
  have h := update_enabled_error_iff scenarioA scenarioBTick rfl
  have hE : (update scenarioA scenarioBTick).m_state = .kStateError := h.1.mpr (Or.inl rfl)
  have hP : scenarioBTick.Prompt := by
    unfold TickInput.Prompt
    decide
  exact ⟨hE, (h.2.2.2 hE).1, (h.2.2.2 hE).2.2 hP⟩

/-! ## Heater bounds -/

/-- C6: after any update the heater level lies in `[0, 1]` provided the command returned by
the controller does, and the heater level and the safety signal are both 0 whenever the
session ends the update outside Enabled. -/
theorem update_heater_bounds (s : TempControl) (i : TickInput) :
    (0 ≤ i.cmd → i.cmd ≤ 1 → 0 ≤ (update s i).s_pwm_heater ∧ (update s i).s_pwm_heater ≤ 1) ∧
    ((update s i).m_state ≠ .kStateEnabled →
      (update s i).s_pwm_heater = 0 ∧ (update s i).s_pwm_safety = 0) := by
  obtain ⟨hus, huh, hup, -, -⟩ := updateSwitch_result (preSwitch s i) i
  rw [← update_eq_preSwitch] at hus huh hup
  constructor
  · intro h0 h1
    rw [huh]
    split_ifs
    · exact ⟨h0, h1⟩
    · exact ⟨le_refl 0, zero_le_one⟩
  · intro hne
    have hp : (preSwitch s i).m_state ≠ .kStateEnabled := by
      intro hE
      apply hne
      rw [hus, hE]
      simp
    rw [huh, hup, if_neg hp, if_neg hp]
    exact ⟨rfl, rfl⟩

/-- Witness of C6: the tick of Scenario A (command 1/4) leaves the heater within `[0, 1]`, and
the tick of Scenario B, which ends in Error, leaves heater and safety signal at 0. -/
theorem update_heater_bounds_witness :
    (0 ≤ (update scenarioA scenarioATick).s_pwm_heater ∧
      (update scenarioA scenarioATick).s_pwm_heater ≤ 1) ∧
    (update scenarioA scenarioBTick).s_pwm_heater = 0 ∧
    (update scenarioA scenarioBTick).s_pwm_safety = 0 :=
  ⟨(update_heater_bounds scenarioA scenarioATick).1
      (by norm_num [scenarioATick]) (by norm_num [scenarioATick]),
   (update_heater_bounds scenarioA scenarioBTick).2 (by decide)⟩

/-! ## Cooldown and Error -/

/-- An update that starts in Cooldown or Error with a successful read and an in-range
temperature, in terms of the value `msecInState()` returns: the heater is off, the fan is on
exactly when that value is below `kHeaterCooldownMsec`, and the state is unchanged except that
Cooldown becomes Disabled once the value has reached `kHeaterCooldownMsec`. -/
theorem update_cooldown_or_error (s : TempControl) (i : TickInput)
    (hst : s.m_state = .kStateCooldown ∨ s.m_state = .kStateError)
    (hread : i.read_ok = true)
    (hlo : s.m_temp_min_ok ≤ i.temperature) (hhi : i.temperature ≤ s.m_temp_max_ok) :
    (update s i).s_pwm_heater = 0 ∧ (update s i).s_pwm_safety = 0 ∧
    ((update s i).s_relay_fan = true ↔ msecInState s i.ms_switch < kHeaterCooldownMsec) ∧
    (update s i).m_state =
      (if s.m_state = .kStateCooldown ∧ kHeaterCooldownMsec ≤ msecInState s i.ms_switch
       then .kStateDisabled else s.m_state) ∧
    (s.m_state = .kStateCooldown → msecInState s i.ms_switch < kHeaterCooldownMsec →
      (update s i).s_relay_fan = true ∧ (update s i).s_pwm_heater = 0 ∧
      (update s i).m_state = .kStateCooldown) := by
  have hok : temp_ok s i.temperature = true := (temp_ok_iff s _).mpr ⟨hlo, hhi⟩
  obtain ⟨hps, hpe⟩ := preSwitch_fields s i
  rw [checked_state] at hps
  rw [checked_entered] at hpe
  have hps' : (preSwitch s i).m_state = s.m_state := by
    rw [hps]
    simp [hread, hok]
  have hpe' : (preSwitch s i).m_last_state_change_msec = s.m_last_state_change_msec := by
    rw [hpe]
    simp [hread, hok]
  have hms : msecInState (preSwitch s i) i.ms_switch = msecInState s i.ms_switch := by
    simp [msecInState, hpe']
  obtain ⟨hus, huh, hup, huf, -⟩ := updateSwitch_result (preSwitch s i) i
  rw [← update_eq_preSwitch, hps'] at hus huh hup huf
  rw [hms] at hus huf
  have hne : s.m_state ≠ .kStateEnabled := by
    rcases hst with h | h <;> simp [h]
  have hnd : s.m_state ≠ .kStateDisabled := by
    rcases hst with h | h <;> simp [h]
  have hfan : (update s i).s_relay_fan = true ↔
      msecInState s i.ms_switch < kHeaterCooldownMsec := by
    rw [huf, if_neg hne, if_neg hnd]
    simp
  refine ⟨by rw [huh, if_neg hne], by rw [hup, if_neg hne], hfan, ?_, ?_⟩
  · rw [hus]
    simp only [not_lt]
  · intro hc hlt
    refine ⟨hfan.mpr hlt, by rw [huh, if_neg hne], ?_⟩
    rw [hus, if_neg (by simp [hlt]), hc]

/-- The session of Scenario D, written out. -/
theorem scenarioD_eq : scenarioD =
    { TempControl.init with
      m_state := .kStateCooldown, m_last_temp := 24, m_last_msec := 5000,
      m_last_state_change_msec := 60000, m_heat_mode := kOff, s_pid_target := 24,
      s_blink := false, m_scheduler := 1 } := by
  rfl

/-- Scenario D: 10 s into the cooldown the fan is on, the heater is off and the state is still
Cooldown. -/
theorem update_cooldown_or_error_witness :
    (update scenarioD scenarioDTick).s_relay_fan = true ∧
    (update scenarioD scenarioDTick).s_pwm_heater = 0 ∧
    (update scenarioD scenarioDTick).m_state = .kStateCooldown :=
  (update_cooldown_or_error scenarioD scenarioDTick (Or.inl rfl) rfl
    (by norm_num [scenarioD_eq, scenarioDTick, TempControl.init, kDefaultMinValidTemp])
    (by norm_num [scenarioD_eq, scenarioDTick, TempControl.init, kDefaultMaxValidTemp])).2.2.2.2
    rfl (by decide)

/-- The `unsigned long` difference between a clock reading and an earlier one is the time
between them modulo `2 ^ 32`. -/
theorem ulongSub_add (entered elapsed : Nat) :
    ulongSub (entered + elapsed) entered = elapsed % kULongModulus := by
  unfold ulongSub
  simp only [kULongModulus]
  omega

/-- Below `2 ^ 31` ms `msecInState()` is the time elapsed since the state was entered. -/
theorem msecInState_of_elapsed (s : TempControl) (entered elapsed : Nat)
    (hentry : s.m_last_state_change_msec = entered % kULongModulus)
    (hel : elapsed < kULongModulus / 2) :
    msecInState s (entered + elapsed) = (elapsed : Int) := by
  unfold msecInState
  rw [hentry, ulongSub_mod_right, ulongSub_add]
  unfold toLong
  simp only [kULongModulus] at *
  split_ifs <;> omega

/-- An update that starts in Cooldown or Error with a successful read and an in-range
temperature, less than `2 ^ 31` ms after the state was entered: the heater is off, the fan is
on exactly when the elapsed time is below the cooldown duration, and the state is unchanged
except that Cooldown becomes Disabled once the cooldown duration has elapsed. -/
theorem update_cooldown_or_error_elapsed (s : TempControl) (i : TickInput)
    (entered elapsed : Nat)
    (hst : s.m_state = .kStateCooldown ∨ s.m_state = .kStateError)
    (hread : i.read_ok = true)
    (hlo : s.m_temp_min_ok ≤ i.temperature) (hhi : i.temperature ≤ s.m_temp_max_ok)
    (hentry : s.m_last_state_change_msec = entered % kULongModulus)
    (hnow : i.ms_switch = entered + elapsed)
    (hel : elapsed < kULongModulus / 2) :
    (update s i).s_pwm_heater = 0 ∧ (update s i).s_pwm_safety = 0 ∧
    ((update s i).s_relay_fan = true ↔ (elapsed : Int) < kHeaterCooldownMsec) ∧
    (update s i).m_state =
      (if s.m_state = .kStateCooldown ∧ kHeaterCooldownMsec ≤ (elapsed : Int)
       then .kStateDisabled else s.m_state) := by
  obtain ⟨h1, h2, h3, h4, -⟩ := update_cooldown_or_error s i hst hread hlo hhi
  rw [hnow, msecInState_of_elapsed s entered elapsed hentry hel] at h3 h4
  exact ⟨h1, h2, h3, h4⟩

/-- C7, the code at the failing input: the session of Scenario C has been in Error since 6000 ms
and the update, with a good sample, reads the clock `2 ^ 31` ms later.  `msecInState()` returns
the 32-bit difference as a `long`, here -2147483648, which is below `kHeaterCooldownMsec`, so
the fan is switched on although far more than the cooldown duration has elapsed; 94 s after
the error was entered the same session has the fan off. -/
theorem update_error_fan_after_wrap :
    scenarioC.m_state = .kStateError ∧
    scenarioC.m_last_state_change_msec = 6000 ∧
    scenarioWrapTick.ms_switch = 6000 + 2 ^ 31 ∧
    scenarioWrapTick.read_ok = true ∧
    scenarioC.m_temp_min_ok ≤ scenarioWrapTick.temperature ∧
    scenarioWrapTick.temperature ≤ scenarioC.m_temp_max_ok ∧
    ¬ ((2 ^ 31 : Int) < kHeaterCooldownMsec) ∧
    msecInState scenarioC scenarioWrapTick.ms_switch = -2147483648 ∧
    (update scenarioC scenarioWrapTick).m_state = .kStateError ∧
    (update scenarioC scenarioWrapTick).s_relay_fan = true ∧
    (update scenarioC scenarioCTick).s_relay_fan = false := by
  decide

/-- C8: Error is left only by an explicit request: whatever the sensor result, the
temperature and the clock readings, an update of a session in Error ends in Error and keeps
the time of the last state change, whereas `setDisable()` on a session in Error yields
Disabled. -/
theorem update_error_stays (s : TempControl) (i : TickInput) (t : Nat)
    (hst : s.m_state = .kStateError) :
    (update s i).m_state = .kStateError ∧
    (update s i).m_last_state_change_msec = s.m_last_state_change_msec ∧
    (setDisable s t).m_state = .kStateDisabled := by
  obtain ⟨hps, hpe⟩ := preSwitch_fields s i
  rw [checked_state] at hps
  rw [checked_entered] at hpe
  have hps' : (preSwitch s i).m_state = .kStateError := by
    rw [hps, hst]
    simp
  have hpe' : (preSwitch s i).m_last_state_change_msec = s.m_last_state_change_msec := by
    rw [hpe, if_pos hst]
  obtain ⟨hus, -, -, -, hul⟩ := updateSwitch_result (preSwitch s i) i
  rw [← update_eq_preSwitch] at hus hul
  refine ⟨?_, ?_, ?_⟩
  · rw [hus, hps']
    simp
  · rw [hul hps', hpe']
  · simp [setDisable, hst, setState_state]

/-- Witness of C8 (Scenario C): 94 s into Error an update with a good sample stays in Error,
and the disable request that follows yields Disabled. -/
theorem update_error_stays_witness :
    (update scenarioC scenarioCTick).m_state = .kStateError ∧
    (update scenarioC scenarioCTick).m_last_state_change_msec = 6000 ∧
    (setDisable scenarioC 100500).m_state = .kStateDisabled :=
  update_error_stays scenarioC scenarioCTick 100500 rfl

/-! ## Enable and disable requests -/

theorem setEnable_state (s : TempControl) (r : SensorRead) (t : Nat) :
    (setEnable s r t).m_state = .kStateEnabled := by
  unfold setEnable
  split
  · assumption
  · exact setState_state _ _ _ _

theorem setDisable_state (s : TempControl) (t : Nat) :
    (setDisable s t).m_state = .kStateDisabled ∨ (setDisable s t).m_state = .kStateCooldown := by
  unfold setDisable
  split
  · exact Or.inr (setState_state _ _ _ _)
  · left; assumption
  · right; assumption
  · exact Or.inl (setState_state _ _ _ _)

/-- C9: enable and disable requests are idempotent: a second `setEnable()` (whatever the
sensor reads) or a second `setDisable()` leaves the whole session as the first one made it; in
particular `setEnable()` on an Enabled session and `setDisable()` on a Disabled or Cooldown
session change nothing. -/
theorem setEnable_setDisable_idempotent (s : TempControl) (r1 r2 : SensorRead) (t1 t2 : Nat) :
    setEnable (setEnable s r1 t1) r2 t2 = setEnable s r1 t1 ∧
    setDisable (setDisable s t1) t2 = setDisable s t1 ∧
    (s.m_state = .kStateEnabled → setEnable s r1 t1 = s) ∧
    (s.m_state = .kStateDisabled ∨ s.m_state = .kStateCooldown → setDisable s t1 = s) := by
  have hE : ∀ (x : TempControl) (r : SensorRead) (t : Nat),
      x.m_state = .kStateEnabled → setEnable x r t = x := by
    intro x r t h
    simp [setEnable, h]
  have hD : ∀ (x : TempControl) (t : Nat),
      x.m_state = .kStateDisabled ∨ x.m_state = .kStateCooldown → setDisable x t = x := by
    intro x t h
    rcases h with h | h <;> simp [setDisable, h]
  exact ⟨hE _ _ _ (setEnable_state s r1 t1), hD _ _ (setDisable_state s t1), hE s r1 t1, hD s t1⟩

/-- Witness of C9: a second enable request on the session of Scenario A, with a different
sample, changes nothing. -/
theorem setEnable_setDisable_idempotent_witness :
    setEnable scenarioA { ok := true, temperature := 30 } 7000 = scenarioA :=
  (setEnable_setDisable_idempotent scenarioA { ok := true, temperature := 30 }
    { ok := false, temperature := 0 } 7000 7001).2.2.1 rfl

/-! ## Remote target temperature -/

/-- For a finite parsed number `t`, `mqttSetTargetTemp` stores `t` when `15 ≤ t ≤ 35` and
leaves the setpoint alone otherwise; it also leaves it alone when the payload does not parse
and when the parsed value is an infinity. -/
theorem mqttSetTargetTemp_finite (t : ℚ) (old : CFloat) :
    (15 ≤ t → t ≤ 35 → mqttSetTargetTemp (some (.finite t)) old = .finite t) ∧
    (t < 15 ∨ 35 < t → mqttSetTargetTemp (some (.finite t)) old = old) ∧
    mqttSetTargetTemp none old = old ∧
    mqttSetTargetTemp (some .posInf) old = old ∧
    mqttSetTargetTemp (some .negInf) old = old := by
  refine ⟨?_, ?_, rfl, rfl, rfl⟩
  · intro h1 h2
    have h3 : ¬ t > kTargetTempMax := by simp only [kTargetTempMax]; linarith
    have h4 : ¬ t < kTargetTempMin := by simp only [kTargetTempMin]; linarith
    simp [mqttSetTargetTemp, CFloat.gt, CFloat.lt, h3, h4]
  · intro h
    rcases h with h | h
    · have h4 : t < kTargetTempMin := by simp only [kTargetTempMin]; exact h
      simp [mqttSetTargetTemp, CFloat.gt, CFloat.lt, h4]
    · have h3 : t > kTargetTempMax := by simp only [kTargetTempMax]; exact h
      simp [mqttSetTargetTemp, CFloat.gt, CFloat.lt, h3]

/-- Scenario E: a payload that parses to 50, above the maximum of 35, leaves the setpoint of
27 unchanged. -/
theorem mqttSetTargetTemp_scenarioE :
    mqttSetTargetTemp (some (.finite 50)) (.finite 27) = .finite 27 :=
  (mqttSetTargetTemp_finite 50 (.finite 27)).2.1 (Or.inr (by norm_num))

/-- C10, the code at the failing input: when `sscanf` returns 1 and stores a NaN (payload
"nan"), neither `temp > kTargetTempMax` nor `temp < kTargetTempMin` holds, so
`setTargetTemp(temp)` runs and a setpoint of 27 is replaced by the NaN, although the parsed
value is not a number between 15 and 35. -/
theorem mqttSetTargetTemp_stores_nan :
    CFloat.gt .nan kTargetTempMax = false ∧ CFloat.lt .nan kTargetTempMin = false ∧
    mqttSetTargetTemp (some .nan) (.finite 27) = .nan ∧
    mqttSetTargetTemp (some .nan) (.finite 27) ≠ .finite 27 := by
  refine ⟨rfl, rfl, rfl, ?_⟩
  intro h
  cases h

/-! ## Timing anomalies -/

/-- Outside the window `0 < dt < 2` the ramp block changes nothing. -/
theorem updateRamp_skip (s : TempControl) (now : Int)
    (h : tickDt now s.m_last_msec ≤ 0 ∨ 2 ≤ tickDt now s.m_last_msec) :
    updateRamp s now = s := by
  have h2 : ¬ (tickDt now s.m_last_msec > 0 ∧ tickDt now s.m_last_msec < 2) := by
    rintro ⟨h0, h1⟩
    rcases h with h | h <;> linarith
  by_cases h1 : s.m_state = .kStateEnabled ∧ s.m_last_msec > 0 <;> simp [updateRamp, h1, h2]

/-- C11: an update that starts in Enabled with a successful read and an in-range temperature
but with `dt ≤ 0` or `dt ≥ 2` (`dt` being `(now_msec - m_last_msec) * 1.0e-3` as the code
computes it) leaves the ramped target, the target rate and the feedforward unchanged and
stays Enabled: the timing anomaly never produces Error. -/
theorem update_timing_anomaly (s : TempControl) (i : TickInput)
    (hst : s.m_state = .kStateEnabled) (hread : i.read_ok = true)
    (hlo : s.m_temp_min_ok ≤ i.temperature) (hhi : i.temperature ≤ s.m_temp_max_ok)
    (hdt : tickDt (toLong i.ms_now) s.m_last_msec ≤ 0 ∨
      2 ≤ tickDt (toLong i.ms_now) s.m_last_msec) :
    (update s i).s_pid_target = s.s_pid_target ∧
    (update s i).s_pid_d_target = s.s_pid_d_target ∧
    (update s i).s_pid_feedforward = s.s_pid_feedforward ∧
    (update s i).m_state = .kStateEnabled := by
  have hok : temp_ok s i.temperature = true := (temp_ok_iff s _).mpr ⟨hlo, hhi⟩
  have hl : (updateCapture s i.temperature).m_last_msec = s.m_last_msec := by
    unfold updateCapture
    split_ifs <;> rfl
  rw [update_enabled_valid s i hst hread hok, updateRamp_skip _ _ (by rw [hl]; exact hdt)]
  unfold updateCapture
  split_ifs <;> simp [sameState, turnFanOn, heaterOn, updateTrack, hst]

/-- The late tick comes 10 s after the last valid sample of Scenario A. -/
theorem scenarioLate_tickDt :
    tickDt (toLong scenarioLateTick.ms_now) scenarioA.m_last_msec = 10 := by
  have h : ulongSub (toULong (toLong 15000)) 5000 = 10000 := by decide
  simp only [scenarioA_eq, scenarioLateTick, tickDt, h]
  norm_num

/-- Witness of C11: a tick 10 s after the last valid sample keeps target 24.0, rate 0 and
feedforward 0 of Scenario A, and the state Enabled. -/
theorem update_timing_anomaly_witness :
    (update scenarioA scenarioLateTick).s_pid_target = 24 ∧
    (update scenarioA scenarioLateTick).s_pid_d_target = 0 ∧
    (update scenarioA scenarioLateTick).s_pid_feedforward = 0 ∧
    (update scenarioA scenarioLateTick).m_state = .kStateEnabled := by
  have h := update_timing_anomaly scenarioA scenarioLateTick rfl rfl
    (by norm_num [scenarioA_eq, scenarioLateTick, TempControl.init, kDefaultMinValidTemp])
    (by norm_num [scenarioA_eq, scenarioLateTick, TempControl.init, kDefaultMaxValidTemp])
    (Or.inr (by rw [scenarioLate_tickDt]; norm_num))
  simpa [scenarioA_eq, TempControl.init] using h

/-! ## The safety interlock -/

/-- The outputs of an update that runs the Enabled branch of the state switch. -/
theorem update_enabled_outputs (s : TempControl) (i : TickInput)
    (hst : s.m_state = .kStateEnabled) (hread : i.read_ok = true)
    (hok : temp_ok s i.temperature = true) :
    (update s i).s_pwm_heater = i.cmd ∧ (update s i).s_pwm_safety = 1 / 2 ∧
    (update s i).s_relay_fan = true := by
  rw [update_enabled_valid s i hst hread hok]
  simp [sameState, turnFanOn, heaterOn]

/-- C12, counterexample: `heaterOn(0)` commands a heater level of 0, which lies in `[0, 1]`, and
still asserts the safety signal with duty 0.5, so the signal is not asserted exactly when the
level is above 0; the Enabled branch of `update()` issues this command when the controller
returns 0. -/
theorem heaterOn_zero_asserts_safety :
    (0 : ℚ) ≤ 0 ∧ (0 : ℚ) ≤ 1 ∧
    (heaterOn TempControl.init 0).s_pwm_heater = 0 ∧
    (heaterOn TempControl.init 0).s_pwm_safety = 1 / 2 ∧
    ¬ ((heaterOn TempControl.init 0).s_pwm_safety ≠ 0 ↔
        (heaterOn TempControl.init 0).s_pwm_heater > 0) ∧
    (update scenarioA scenarioZeroCmdTick).s_pwm_heater = 0 ∧
    (update scenarioA scenarioZeroCmdTick).s_pwm_safety = 1 / 2 := by
  have h := update_enabled_outputs scenarioA scenarioZeroCmdTick rfl rfl (by decide)
  refine ⟨le_refl 0, zero_le_one, rfl, rfl, ?_, h.1, h.2.1⟩
  simp [heaterOn]

/-- C12, amended: `heaterOn(level)` commands the level and asserts the safety signal (duty
0.5) for every level, so the signal is asserted whenever the commanded level is above 0;
`heaterOff()` commands level 0 and de-asserts the signal; and after every update a heater level
above 0 comes with the safety signal asserted. -/
theorem heater_safety_interlock (s : TempControl) (level : ℚ) (i : TickInput) :
    (heaterOn s level).s_pwm_heater = level ∧
    (heaterOn s level).s_pwm_safety = 1 / 2 ∧
    (0 < level → (heaterOn s level).s_pwm_safety ≠ 0) ∧
    (heaterOff s).s_pwm_heater = 0 ∧
    (heaterOff s).s_pwm_safety = 0 ∧
    (0 < (update s i).s_pwm_heater → (update s i).s_pwm_safety = 1 / 2) := by
  refine ⟨rfl, rfl, fun _ => ?_, rfl, rfl, ?_⟩
  · simp [heaterOn]
  · obtain ⟨-, huh, hup, -, -⟩ := updateSwitch_result (preSwitch s i) i
    rw [← update_eq_preSwitch] at huh hup
    intro h
    by_cases hE : (preSwitch s i).m_state = .kStateEnabled
    · rw [hup, if_pos hE]
    · rw [huh, if_neg hE] at h
      exact absurd h (lt_irrefl 0)

/-- Witness of the amended C12: a level of 1/4 is commanded with the safety signal asserted,
and the tick of Scenario A (command 1/4) ends with the safety signal at duty 0.5. -/
theorem heater_safety_interlock_witness :
    (heaterOn TempControl.init (1 / 4)).s_pwm_safety ≠ 0 ∧
    (update scenarioA scenarioATick).s_pwm_safety = 1 / 2 :=
  ⟨(heater_safety_interlock TempControl.init (1 / 4) scenarioATick).2.2.1 (by norm_num),
   (heater_safety_interlock scenarioA (1 / 4) scenarioATick).2.2.2.2.2
     (by rw [(update_enabled_outputs scenarioA scenarioATick rfl rfl (by decide)).1]
         norm_num [scenarioATick])⟩

/-! ## Read failures and invalid readings -/

/-- An update whose checks leave the session in Error: the state, the heater and the safety
signal after the switch, and the fan in terms of `msecInState()`. -/
theorem update_of_checked_error (s : TempControl) (i : TickInput)
    (hE : (updateRangeCheck (updateReadCheck s i) i).m_state = .kStateError) :
    (update s i).m_state = .kStateError ∧ (update s i).s_pwm_heater = 0 ∧
    (update s i).s_pwm_safety = 0 ∧
    (update s i).s_relay_fan =
      decide (toLong (ulongSub i.ms_switch
        (updateRangeCheck (updateReadCheck s i) i).m_last_state_change_msec)
          < kHeaterCooldownMsec) := by
  obtain ⟨hps, hpe⟩ := preSwitch_fields s i
  rw [hE] at hps
  obtain ⟨hus, huh, hup, huf, -⟩ := updateSwitch_result (preSwitch s i) i
  rw [← update_eq_preSwitch, hps] at hus huh hup huf
  refine ⟨by simpa using hus, by simpa using huh, by simpa using hup, ?_⟩
  rw [huf]
  simp [msecInState, hpe]

/-- For every starting state other than Disabled, an update on which the sensor read fails
(whatever `temperature()` then returns) and an update at the same clock readings on which the
read succeeds with a temperature outside `[m_temp_min_ok, m_temp_max_ok]` both end in Error
with the same heater and safety commands; the fan commands agree when the session starts in
Error or the update is prompt. -/
theorem update_read_failure_same_as_invalid (s : TempControl) (i : TickInput) (t1 t2 : ℚ)
    (hst : s.m_state ≠ .kStateDisabled)
    (hbad : t2 < s.m_temp_min_ok ∨ s.m_temp_max_ok < t2) :
    (update s { i with read_ok := false, temperature := t1 }).m_state = .kStateError ∧
    (update s { i with read_ok := true, temperature := t2 }).m_state = .kStateError ∧
    (update s { i with read_ok := false, temperature := t1 }).s_pwm_heater =
      (update s { i with read_ok := true, temperature := t2 }).s_pwm_heater ∧
    (update s { i with read_ok := false, temperature := t1 }).s_pwm_safety =
      (update s { i with read_ok := true, temperature := t2 }).s_pwm_safety ∧
    (s.m_state = .kStateError ∨ i.Prompt →
      (update s { i with read_ok := false, temperature := t1 }).s_relay_fan =
        (update s { i with read_ok := true, temperature := t2 }).s_relay_fan) := by
  have hk : temp_ok s t2 = false := (temp_ok_false_iff s t2).mpr hbad
  have hEa : (updateRangeCheck (updateReadCheck s { i with read_ok := false, temperature := t1 })
      { i with read_ok := false, temperature := t1 }).m_state = .kStateError := by
    rw [checked_state]
    simp [hst]
  have hEb : (updateRangeCheck (updateReadCheck s { i with read_ok := true, temperature := t2 })
      { i with read_ok := true, temperature := t2 }).m_state = .kStateError := by
    rw [checked_state]
    simp [hk]
  obtain ⟨ha1, ha2, ha3, ha4⟩ := update_of_checked_error s _ hEa
  obtain ⟨hb1, hb2, hb3, hb4⟩ := update_of_checked_error s _ hEb
  refine ⟨ha1, hb1, by rw [ha2, hb2], by rw [ha3, hb3], fun hclk => ?_⟩
  rw [ha4, hb4, checked_entered, checked_entered]
  by_cases he : s.m_state = .kStateError
  · simp [he]
  · have hp := hclk.resolve_left he
    simp only [he, if_false, hst, ne_eq, not_false_eq_true, and_self, if_true,
      Bool.true_eq_false, false_and, hk, ulongSub_mod_right]
    rw [decide_eq_true hp.1, decide_eq_true hp.2]

/-- On the Enabled session of Scenario A the failed read and the successful read of 50.0 end
in the same state with the same heater and fan commands. -/
theorem update_read_failure_same_as_invalid_scenarioA :
    (update scenarioA scenarioBTick).m_state = (update scenarioA scenarioHotTick).m_state ∧
    (update scenarioA scenarioBTick).s_pwm_heater =
      (update scenarioA scenarioHotTick).s_pwm_heater ∧
    (update scenarioA scenarioBTick).s_relay_fan =
      (update scenarioA scenarioHotTick).s_relay_fan := by
  have hP : scenarioBTick.Prompt := by
    unfold TickInput.Prompt
    decide
  have h := update_read_failure_same_as_invalid scenarioA scenarioBTick 24 50 (by decide)
    (Or.inr (by norm_num [scenarioA_eq, TempControl.init, kDefaultMaxValidTemp]))
  exact ⟨h.1.trans h.2.1.symm, h.2.2.1, h.2.2.2.2 (Or.inr hP)⟩

/-- C13, the code at the failing input: on the Disabled initial session a failed read with a
stale in-range temperature leaves the state Disabled and the fan off, while a successful read
of 50.0, above the maximum of 40.0, ends in Error with the fan on: the range check of
`update()` has no `m_state != kStateDisabled` guard, unlike the read-failure check before
it.  The claim has the two updates end alike. -/
theorem update_disabled_fault_differs :
    TempControl.init.m_state = .kStateDisabled ∧
    scenarioBTick.read_ok = false ∧ scenarioHotTick.read_ok = true ∧
    TempControl.init.m_temp_max_ok < scenarioHotTick.temperature ∧
    (update TempControl.init scenarioBTick).m_state = .kStateDisabled ∧
    (update TempControl.init scenarioHotTick).m_state = .kStateError ∧
    (update TempControl.init scenarioBTick).s_relay_fan = false ∧
    (update TempControl.init scenarioHotTick).s_relay_fan = true := by
  refine ⟨rfl, rfl, rfl, ?_, by decide, by decide, by decide, by decide⟩
  norm_num [TempControl.init, kDefaultMaxValidTemp, scenarioHotTick]

/-! ## Remote mode payloads -/

/-- On a payload without NUL bytes, `strncmp(payload, k, len)` is 0 exactly when the payload
is a prefix of `k`. -/
theorem strncmp_self_length_eq_zero_iff (p k : List Char) (hp : ∀ c ∈ p, c ≠ '\x00') :
    strncmp p k p.length = 0 ↔ p <+: k := by
  induction p generalizing k with
  | nil => simp [strncmp]
  | cons c p ih =>
    have hc : c ≠ '\x00' := hp c (List.mem_cons_self _ _)
    have hp' : ∀ d ∈ p, d ≠ '\x00' := fun d hd => hp d (List.mem_cons_of_mem _ hd)
    cases k with
    | nil =>
      simp only [List.length_cons, strncmp, List.prefix_nil, reduceCtorEq, iff_false]
      intro h
      apply hc
      have h0 : c.toNat = 0 := by exact_mod_cast h
      rw [← Char.ofNat_toNat c, h0]
    | cons d k =>
      simp only [List.length_cons, strncmp]
      by_cases hcd : c = d
      · subst hcd
        simp [hc, ih k hp', List.cons_prefix_cons]
      · simp only [hcd, if_false, List.cons_prefix_cons, false_and, iff_false]
        intro h
        apply hcd
        have h2 : c.toNat = d.toNat := by omega
        rw [← Char.ofNat_toNat c, h2, Char.ofNat_toNat]

/-- What `mqttSetMode` does with a payload without NUL bytes: every prefix of "off" is taken
as "off", every other prefix of "heat" as "heat", and only the rest is ignored. -/
theorem mqttSetMode_eq (s : TempControl) (p : List Char) (hp : ∀ c ∈ p, c ≠ '\x00') :
    mqttSetMode s p =
      if p <+: kOff.toList then delaySetEnable s false
      else if p <+: kHeat.toList then delaySetEnable s true
      else none := by
  have h1 := strncmp_self_length_eq_zero_iff p kOff.toList hp
  have h2 := strncmp_self_length_eq_zero_iff p kHeat.toList hp
  simp only [mqttSetMode, eq_comm (a := (0 : Int)), h1, h2]

/-- C14, the code at the failing inputs: on the Enabled session of Scenario A the empty payload
and the strict prefixes "o" and "of" schedule `setDisable()`, which moves the session to
Cooldown; on the Disabled initial session the strict prefixes "h", "he" and "hea" schedule
`setEnable()`, which moves the session to Enabled.  The claim has all of them ignored. -/
theorem mqttSetMode_accepts_prefixes :
    mqttSetMode scenarioA "".toList = some .setDisable ∧
    mqttSetMode scenarioA "o".toList = some .setDisable ∧
    mqttSetMode scenarioA "of".toList = some .setDisable ∧
    mqttSetMode TempControl.init "h".toList = some .setEnable ∧
    mqttSetMode TempControl.init "he".toList = some .setEnable ∧
    mqttSetMode TempControl.init "hea".toList = some .setEnable ∧
    scenarioA.m_state = .kStateEnabled ∧
    (runDeferred scenarioA (mqttSetMode scenarioA "".toList)
      { ok := true, temperature := 24 } 7000).m_state = .kStateCooldown ∧
    TempControl.init.m_state = .kStateDisabled ∧
    (runDeferred TempControl.init (mqttSetMode TempControl.init "h".toList)
      { ok := true, temperature := 24 } 7000).m_state = .kStateEnabled := by
  decide

/-- The exact payloads "off" and "heat" schedule the request when the session is not yet in
that mode, and payloads that are no prefix of either are ignored. -/
theorem mqttSetMode_exact :
    mqttSetMode scenarioA "off".toList = some .setDisable ∧
    mqttSetMode TempControl.init "heat".toList = some .setEnable ∧
    mqttSetMode scenarioA "heat".toList = none ∧
    mqttSetMode TempControl.init "off".toList = none ∧
    mqttSetMode scenarioA "offx".toList = none ∧
    mqttSetMode scenarioA "cool".toList = none := by
  decide

end Dough133
